import Mathlib

/-!
Shallow embedding of the core of `angualberto/IAprediction`:
the trajectory recurrence engine of `src/PythonIA.py` and the
mutation/translation/search pipeline of `src/simular_anticorpo.py`.

Python floats are modelled by exact rationals (`ℚ`); Python integers by
`ℤ`/`ℕ`.  The single transcendental value of the trajectory engine, the
decay factor `np.exp(-lambda_p * dt)` that the source computes once before
its loop, enters the embedding as an explicit parameter `decaimento`.
Code that can raise (the unconditional write `x_hist[0] = x_0` on a
possibly empty array) is modelled with `Option`.
-/

namespace IAprediction

/-! ### Trajectory engine (src/PythonIA.py) -/

/-- Default GLC multiplier `a = 1103515245` (src/PythonIA.py line 28). -/
def a0 : ℕ := 1103515245

/-- Default GLC increment `c = 12345` (src/PythonIA.py line 29). -/
def c0 : ℕ := 12345

/-- Default GLC modulus `m = 2**31 - 1` (src/PythonIA.py line 30). -/
def m0 : ℕ := 2 ^ 31 - 1

/-- `seed_to_glc_x0` (src/PythonIA.py lines 65-74).  A numeric seed is masked
with `& 0x7fffffff`; for a Python integer (two's complement semantics on
negatives) this equals reduction modulo `2^31`.  A non-numeric seed is reduced
as `abs(hash(str(xi_p))) % m`; Python's implementation-defined hash value is
taken here as the `ℕ` carried by the `Sum.inr` branch, and `m = 2^31 - 1` is
the module-level modulus used by that branch. -/
def seed_to_glc_x0 : ℤ ⊕ ℕ → ℕ
  | Sum.inl z => (z.emod (2 ^ 31)).toNat
  | Sum.inr h => h % (2 ^ 31 - 1)

/-- `psi` (src/PythonIA.py lines 79-81): `(int(semente_paciente) % 100) / 100.0`.
Python `%` on integers is `Int.emod` (non-negative for positive modulus). -/
def psi (semente_paciente : ℤ) : ℚ :=
  ((semente_paciente.emod 100 : ℤ) : ℚ) / 100

/-- `f_ia` (src/PythonIA.py lines 84-90).  The Python parameters
`memoria_passada`, `tempo` and `semente_paciente` are unused by the body and
omitted; `m` is the modulus the PRNG state is normalized by. -/
def f_ia (estado_aleatorio : ℕ) (m : ℕ) : ℚ :=
  let ruido_mutacao : ℚ := (estado_aleatorio : ℚ) / (m : ℚ)
  let impacto_base : ℚ := 5 / 100
  if ruido_mutacao > 95 / 100 then impacto_base + ruido_mutacao * 5
  else impacto_base + ruido_mutacao

/-- One row of the aligned histories `(tempos, x_hist, f_hist, m_hist, X_hist)`
returned by `rodar_simulacao`: the trajectory sample of one step. -/
structure Sample where
  tempo : ℚ
  x : ℚ
  f : ℚ
  mem : ℚ
  X : ℕ
  deriving DecidableEq, Inhabited

/-- Length of `np.arange(0, n_dias, dt)` (src/PythonIA.py line 97):
`max 0 ⌈n_dias / dt⌉`. -/
def n_passos (n_dias : ℤ) (dt : ℚ) : ℕ :=
  (⌈(n_dias : ℚ) / dt⌉).toNat

/-- Step 0 of the simulation (src/PythonIA.py lines 104-108):
`x_hist[0] = psi(xi_p)`, `m_hist[0] = 0`, `X_hist[0] = seed_to_glc_x0(xi_p)`,
`f_hist[0] = f_ia(0, 0, xi_p, X_hist[0])`, `tempos[0] = 0`. -/
def amostra0 (xi_p : ℤ) (m : ℕ) : Sample :=
  { tempo := 0
    x := psi xi_p
    f := f_ia (seed_to_glc_x0 (Sum.inl xi_p)) m
    mem := 0
    X := seed_to_glc_x0 (Sum.inl xi_p) }

/-- Loop body of `rodar_simulacao` (src/PythonIA.py lines 112-120) for step
`n ≥ 1`: `X_n = (a*X_{n-1} + c) % m`, `f_n = f_ia(..., X_n)`,
`m_n = decaimento*m_{n-1} + f_n*dt`, `x_n = x_0 + m_n`, `tempos[n] = n*dt`. -/
def passo (dt decaimento x_0 : ℚ) (a c m : ℕ) (prev : Sample) (n : ℕ) : Sample :=
  let X_n : ℕ := (a * prev.X + c) % m
  let f_n : ℚ := f_ia X_n m
  let m_n : ℚ := decaimento * prev.mem + f_n * dt
  { tempo := (n : ℚ) * dt, x := x_0 + m_n, f := f_n, mem := m_n, X := X_n }

/-- The trajectory as a function of the step index: step 0 is `amostra0`,
step `n+1` is `passo` applied to step `n`. -/
def trajetoria (dt decaimento : ℚ) (xi_p : ℤ) (a c m : ℕ) : ℕ → Sample
  | 0 => amostra0 xi_p m
  | n + 1 => passo dt decaimento (psi xi_p) a c m
      (trajetoria dt decaimento xi_p a c m n) (n + 1)

/-- `rodar_simulacao` (src/PythonIA.py lines 95-122).  The source allocates
arrays of length `n_passos` and then unconditionally assigns
`x_hist[0] = x_0` (and slot 0 of the other arrays); when `n_passos = 0`
this raises `IndexError`, modelled as `none`.  Otherwise the result is the
list of samples for steps `0, …, n_passos - 1`.  The real decay factor
`np.exp(-lambda_p * dt)`, computed once before the loop in the source, is
the parameter `decaimento`. -/
def rodar_simulacao (n_dias : ℤ) (dt decaimento : ℚ) (xi_p : ℤ) (a c m : ℕ) :
    Option (List Sample) :=
  if n_passos n_dias dt = 0 then none
  else some ((List.range (n_passos n_dias dt)).map (trajetoria dt decaimento xi_p a c m))

/-- One detected mutation event of `run_simulation_with_detection`
(src/PythonIA.py line 134): `{'step': n, 'time': tempos[n], 'f': f_n, 'X': X_n}`. -/
structure Event where
  step : ℕ
  time : ℚ
  f : ℚ
  X : ℕ
  deriving DecidableEq, Inhabited

/-- `run_simulation_with_detection` (src/PythonIA.py lines 125-135): run the
simulation, then collect an `Event` for every step whose impulse satisfies
`f_n > threshold`, in step order. -/
def run_simulation_with_detection (n_dias : ℤ) (dt decaimento : ℚ) (xi_p : ℤ)
    (a c m : ℕ) (threshold : ℚ) : Option (List Sample × List Event) :=
  (rodar_simulacao n_dias dt decaimento xi_p a c m).map (fun samples =>
    (samples,
      (samples.enum.filter (fun p => decide (p.2.f > threshold))).map
        (fun p => { step := p.1, time := p.2.tempo, f := p.2.f, X := p.2.X })))

/-! ### Mutation / translation pipeline (src/simular_anticorpo.py) -/

/-- `GLC_A = 1664525` (src/simular_anticorpo.py line 36). -/
def GLC_A : ℕ := 1664525

/-- `GLC_C = 1013904223` (src/simular_anticorpo.py line 37). -/
def GLC_C : ℕ := 1013904223

/-- `GLC_M = 2**32` (src/simular_anticorpo.py line 38). -/
def GLC_M : ℕ := 2 ^ 32

/-- `LIMIAR_MUTACAO = 0.02` (src/simular_anticorpo.py line 39). -/
def LIMIAR_MUTACAO : ℚ := 2 / 100

/-- `gerar_numero_aleatorio` (src/simular_anticorpo.py lines 42-43):
`(GLC_A * x_n + GLC_C) % GLC_M`. -/
def gerar_numero_aleatorio (x_n : ℕ) : ℕ := (GLC_A * x_n + GLC_C) % GLC_M

/-- `escolher_nova_base` (src/simular_anticorpo.py lines 46-50): remove the
first occurrence of the original base from `["A","T","C","G"]` and pick one of
the remaining candidates with `random.choice`.  That unseeded uniform draw is
modelled by the extra argument `pick`, reduced modulo the candidate count. -/
def escolher_nova_base (original : Char) (pick : ℕ) : Char :=
  let bases := ['A', 'T', 'C', 'G'].erase original
  bases.getD (pick % bases.length) 'A'

/-- PRNG states of `aplicar_mutacoes`: `mut_states s0 0 = s0` is the masked
seed and `mut_states s0 (k+1)` is the state used for position `k`. -/
def mut_states (s0 : ℕ) : ℕ → ℕ
  | 0 => s0
  | k + 1 => gerar_numero_aleatorio (mut_states s0 k)

/-- Loop of `aplicar_mutacoes` (src/simular_anticorpo.py lines 56-62): carry
the PRNG state `s` and the position index `i`; per base advance the PRNG,
compute `prob = s / GLC_M`, and mutate when `prob < LIMIAR_MUTACAO`. -/
def aplicar_mutacoes_go (oracle : ℕ → ℕ) : ℕ → ℕ → List Char → List Char
  | _, _, [] => []
  | s, i, base :: rest =>
    let s' := gerar_numero_aleatorio s
    let prob : ℚ := (s' : ℚ) / (GLC_M : ℚ)
    (if prob < LIMIAR_MUTACAO then escolher_nova_base base (oracle i) else base)
      :: aplicar_mutacoes_go oracle s' (i + 1) rest

/-- `aplicar_mutacoes` (src/simular_anticorpo.py lines 53-63).  The seed is
masked with `& 0xffffffff`, i.e. reduced modulo `2^32`.  `oracle i` models the
unseeded `random.choice` draw used at position `i` when that position mutates. -/
def aplicar_mutacoes (sequencia : List Char) (semente_genetica : ℤ)
    (oracle : ℕ → ℕ) : List Char :=
  aplicar_mutacoes_go oracle ((semente_genetica.emod (2 ^ 32)).toNat) 0 sequencia

/-- `CODON_TABLE` (src/simular_anticorpo.py lines 19-28): the 64-entry genetic
code table, stop codons mapped to the underscore character. -/
def CODON_TABLE : List (List Char × Char) :=
  [ (['A','T','A'], 'I'), (['A','T','C'], 'I'), (['A','T','T'], 'I'), (['A','T','G'], 'M')
  , (['A','C','A'], 'T'), (['A','C','C'], 'T'), (['A','C','G'], 'T'), (['A','C','T'], 'T')
  , (['A','A','C'], 'N'), (['A','A','T'], 'N'), (['A','A','A'], 'K'), (['A','A','G'], 'K')
  , (['A','G','C'], 'S'), (['A','G','T'], 'S'), (['T','C','A'], 'S'), (['T','C','C'], 'S')
  , (['T','C','G'], 'S'), (['T','C','T'], 'S'), (['T','T','C'], 'F'), (['T','T','T'], 'F')
  , (['T','T','A'], 'L'), (['T','T','G'], 'L'), (['T','A','C'], 'Y'), (['T','A','T'], 'Y')
  , (['T','A','A'], '_'), (['T','A','G'], '_'), (['T','G','C'], 'C'), (['T','G','T'], 'C')
  , (['T','G','A'], '_'), (['T','G','G'], 'W'), (['C','T','A'], 'L'), (['C','T','C'], 'L')
  , (['C','T','G'], 'L'), (['C','T','T'], 'L'), (['C','C','A'], 'P'), (['C','C','C'], 'P')
  , (['C','C','G'], 'P'), (['C','C','T'], 'P'), (['C','A','C'], 'H'), (['C','A','T'], 'H')
  , (['C','A','A'], 'Q'), (['C','A','G'], 'Q'), (['C','G','A'], 'R'), (['C','G','C'], 'R')
  , (['C','G','G'], 'R'), (['C','G','T'], 'R'), (['G','T','A'], 'V'), (['G','T','C'], 'V')
  , (['G','T','G'], 'V'), (['G','T','T'], 'V'), (['G','C','A'], 'A'), (['G','C','C'], 'A')
  , (['G','C','G'], 'A'), (['G','C','T'], 'A'), (['G','A','C'], 'D'), (['G','A','T'], 'D')
  , (['G','A','A'], 'E'), (['G','A','G'], 'E'), (['G','G','A'], 'G'), (['G','G','C'], 'G')
  , (['G','G','G'], 'G'), (['G','G','T'], 'G') ]

/-- `traduzir_para_proteina` (src/simular_anticorpo.py lines 66-74): the loop
`for i in range(0, (len(dna)//3)*3, 3)` reads exactly the non-overlapping
leading triplets (1-2 trailing leftover bases never form a triplet and are
dropped); each triplet is looked up with `CODON_TABLE.get(codon, 'X')` and the
loop breaks at the first stop marker, which is excluded from the output. -/
def traduzir_para_proteina : List Char → List Char
  | c1 :: c2 :: c3 :: rest =>
    let aa := (CODON_TABLE.lookup [c1, c2, c3]).getD 'X'
    if aa = '_' then [] else aa :: traduzir_para_proteina rest
  | _ => []

/-- One history entry of `run_simulation` (src/simular_anticorpo.py line 183):
`{'i': i, 'dna': dna_mut, 'prot': prot, 'impacto': impacto}`. -/
structure MutRecord where
  i : ℕ
  dna : List Char
  prot : List Char
  impacto : ℚ
  deriving DecidableEq, Inhabited

/-- Mutable loop state of `run_simulation`: `melhor_proteina`,
`melhor_impacto` and the accumulated `history`. -/
structure LoopState where
  melhor_proteina : List Char
  melhor_impacto : ℚ
  history : List MutRecord
  deriving DecidableEq, Inhabited

/-- Result record of `run_simulation` (src/simular_anticorpo.py lines 187-193). -/
structure SearchResult where
  original_protein : List Char
  original_impact : ℚ
  best_protein : List Char
  best_impact : ℚ
  history : List MutRecord
  deriving DecidableEq, Inhabited

/-- One iteration `i` of the search loop (src/simular_anticorpo.py lines
174-186): mutate with per-iteration seed `semente + i`, translate, skip when
the protein is empty or equals the baseline, otherwise score, append to the
history and update the best on strict improvement. -/
def search_step (classificar : List Char → ℚ) (sequencia : List Char)
    (semente : ℤ) (oracle : ℕ → ℕ → ℕ) (proteina_original : List Char)
    (st : LoopState) (i : ℕ) : LoopState :=
  let dna_mut := aplicar_mutacoes sequencia (semente + (i : ℤ)) (oracle i)
  let prot := traduzir_para_proteina dna_mut
  if prot = [] ∨ prot = proteina_original then st
  else
    let impacto := classificar prot
    let hist' := st.history ++ [{ i := i, dna := dna_mut, prot := prot, impacto := impacto }]
    if impacto > st.melhor_impacto then
      { melhor_proteina := prot, melhor_impacto := impacto, history := hist' }
    else
      { st with history := hist' }

/-- Loop state of `run_simulation` after `n` iterations. -/
def loop_state (classificar : List Char → ℚ) (sequencia : List Char)
    (semente : ℤ) (oracle : ℕ → ℕ → ℕ) (n : ℕ) : LoopState :=
  (List.range n).foldl
    (search_step classificar sequencia semente oracle (traduzir_para_proteina sequencia))
    { melhor_proteina := traduzir_para_proteina sequencia
      melhor_impacto := classificar (traduzir_para_proteina sequencia)
      history := [] }

/-- `run_simulation` (src/simular_anticorpo.py lines 158-194).  The scoring
capability (`ia.classificar` / `ia.classificar_por_contexto`, an injected
external dependency per the spec) is the parameter `classificar`; the
baseline seed `abs(hash(dna)) % GLC_M` (implementation-defined Python hash)
is the parameter `semente`; `oracle i` is the `random.choice` oracle of
iteration `i`'s `aplicar_mutacoes` call. -/
def run_simulation (classificar : List Char → ℚ) (sequencia : List Char)
    (semente : ℤ) (oracle : ℕ → ℕ → ℕ) (n_mutacoes : ℕ) : SearchResult :=
  let proteina_original := traduzir_para_proteina sequencia
  let final := loop_state classificar sequencia semente oracle n_mutacoes
  { original_protein := proteina_original
    original_impact := classificar proteina_original
    best_protein := final.melhor_proteina
    best_impact := final.melhor_impacto
    history := final.history }

/-! ### Shared helper lemmas -/

/-- `getD` on a mapped `List.range` evaluates the mapped function. -/
theorem getD_map_range (f : ℕ → Sample) (N j : ℕ)
    (hj : j < ((List.range N).map f).length) :
    ((List.range N).map f).getD j default = f j := by
  rw [List.getD_eq_getElem _ _ hj, List.getElem_map, List.getElem_range]

/-- A successful run of `rodar_simulacao` is the trajectory listed over
`List.range`. -/
theorem rodar_simulacao_eq_some (n_dias : ℤ) (dt decaimento : ℚ) (xi_p : ℤ)
    (a c m : ℕ) (samples : List Sample)
    (hs : rodar_simulacao n_dias dt decaimento xi_p a c m = some samples) :
    samples = (List.range (n_passos n_dias dt)).map (trajetoria dt decaimento xi_p a c m) := by
  unfold rodar_simulacao at hs
  by_cases h0 : n_passos n_dias dt = 0
  · simp [h0] at hs
  · simp only [h0, if_false, Option.some.injEq] at hs
    exact hs.symm

/-- `n_passos` at a natural day count and unit step: `len(np.arange(0, N, 1)) = N`. -/
theorem n_passos_ofNat (N : ℕ) : n_passos (N : ℤ) 1 = N := by
  unfold n_passos
  rw [div_one, show (((N : ℤ) : ℚ)) = ((N : ℚ)) from by push_cast; ring,
    Int.ceil_natCast, Int.toNat_natCast]

/-- Step 0 of the trajectory satisfies `x = x_0 + m` because `m_0 = 0`. -/
theorem trajetoria_x_eq (dt decaimento : ℚ) (xi_p : ℤ) (a c m : ℕ) (n : ℕ) :
    (trajetoria dt decaimento xi_p a c m n).x
      = psi xi_p + (trajetoria dt decaimento xi_p a c m n).mem := by
  cases n with
  | zero =>
    show (amostra0 xi_p m).x = psi xi_p + (amostra0 xi_p m).mem
    simp [amostra0]
  | succ n => rfl

/-- The memory recurrence of one trajectory step, read off `passo`. -/
theorem trajetoria_mem_succ (dt decaimento : ℚ) (xi_p : ℤ) (a c m : ℕ) (n : ℕ) :
    (trajetoria dt decaimento xi_p a c m (n + 1)).mem
      = decaimento * (trajetoria dt decaimento xi_p a c m n).mem
        + (trajetoria dt decaimento xi_p a c m (n + 1)).f * dt := rfl

/-! ### Claims -/

/-- C2: running the trajectory engine with seed 123456789, dt = 1, n_days = 5
and PRNG parameters a = 1103515245, c = 12345, m = 2^31 - 1 produces exactly
5 samples, with sample 0's state equal to `(123456789 % 100)/100` and sample
0's memory equal to 0.  The decay factor (`exp(-0.0154)` for
lambda = 0.0154) does not affect these three facts, so the theorem holds for
every value of `decaimento`. -/
theorem C2_end_to_end (decaimento : ℚ) :
    ∃ samples : List Sample,
      rodar_simulacao 5 1 decaimento 123456789 1103515245 12345 (2 ^ 31 - 1) = some samples
      ∧ samples.length = 5
      ∧ (samples.getD 0 default).x = ((123456789 % 100 : ℤ) : ℚ) / 100
      ∧ (samples.getD 0 default).mem = 0 := by
  have h5 : n_passos 5 1 = 5 := by simpa using n_passos_ofNat 5
  refine ⟨(List.range 5).map (trajetoria 1 decaimento 123456789 1103515245 12345 (2 ^ 31 - 1)),
    ?_, by simp, ?_, ?_⟩
  · unfold rodar_simulacao
    rw [h5]
    simp
  · have := getD_map_range (trajetoria 1 decaimento 123456789 1103515245 12345 (2 ^ 31 - 1))
      5 0 (by simp)
    rw [this]
    show (amostra0 123456789 (2 ^ 31 - 1)).x = ((123456789 % 100 : ℤ) : ℚ) / 100
    rfl
  · have := getD_map_range (trajetoria 1 decaimento 123456789 1103515245 12345 (2 ^ 31 - 1))
      5 0 (by simp)
    rw [this]
    rfl

/-- C3 counterexample: at n_days = 0 (with dt = 1) the engine does not return
an empty sample sequence — the unconditional write `x_hist[0] = x_0` on the
empty arrays raises `IndexError`, modelled as `none`. -/
theorem C3_counterexample :
    rodar_simulacao 0 1 1 123456789 1103515245 12345 (2 ^ 31 - 1) = none := by
  have h0 : n_passos 0 1 = 0 := by simpa using n_passos_ofNat 0
  simp [rodar_simulacao, h0]

/-- C3 amended: for every n_days ≤ 0 with dt > 0 (and any decay, seed and PRNG
parameters), the trajectory engine raises an error — `np.arange(0, n_dias, dt)`
is empty and the write to sample slot 0 fails — modelled as returning `none`;
it does not return an empty sample sequence. -/
theorem C3_amended (n_dias : ℤ) (hnd : n_dias ≤ 0) (dt : ℚ) (hdt : 0 < dt)
    (decaimento : ℚ) (xi_p : ℤ) (a c m : ℕ) :
    rodar_simulacao n_dias dt decaimento xi_p a c m = none := by
  have hceil : n_passos n_dias dt = 0 := by
    unfold n_passos
    have hq : (n_dias : ℚ) / dt ≤ 0 :=
      div_nonpos_of_nonpos_of_nonneg (by exact_mod_cast hnd) hdt.le
    have hle : ⌈(n_dias : ℚ) / dt⌉ ≤ 0 := by
      have := Int.ceil_le.mpr (by exact_mod_cast hq : (n_dias : ℚ) / dt ≤ ((0 : ℤ) : ℚ))
      exact this
    omega
  simp [rodar_simulacao, hceil]

/-- Witness for C3 amended at n_days = -3, dt = 1. -/
theorem C3_amended_witness :
    (-3 : ℤ) ≤ 0 ∧ (0 : ℚ) < 1
    ∧ rodar_simulacao (-3) 1 1 0 1 0 1 = none :=
  ⟨by decide, by norm_num, C3_amended (-3) (by decide) 1 (by norm_num) 1 0 1 0 1⟩

/-- C4 counterexample: the numeric seed 2147483647 = 2^31 - 1 = m is mapped by
`seed_to_glc_x0` to itself (the mask `& 0x7fffffff` keeps every value up to
2^31 - 1), so the initial PRNG state is not in [0, m). -/
theorem C4_counterexample :
    seed_to_glc_x0 (Sum.inl 2147483647) = 2 ^ 31 - 1
    ∧ ¬ seed_to_glc_x0 (Sum.inl 2147483647) < 2 ^ 31 - 1 := by
  constructor
  · decide
  · decide

/-- C4 amended: numeric seed normalization produces an initial PRNG state in
[0, 2^31) — so at most m = 2^31 - 1, with equality reachable — while string
seeds land in [0, m); the PRNG step `(a*state + c) mod m` keeps every
subsequent trajectory PRNG state a non-negative natural strictly below m
whenever m > 0. -/
theorem C4_amended (z : ℤ) (h s a c m : ℕ) (hm : 0 < m)
    (dt decaimento : ℚ) (xi_p : ℤ) (n : ℕ) :
    seed_to_glc_x0 (Sum.inl z) < 2 ^ 31
    ∧ seed_to_glc_x0 (Sum.inr h) < 2 ^ 31 - 1
    ∧ (a * s + c) % m < m
    ∧ (trajetoria dt decaimento xi_p a c m (n + 1)).X < m := by
  refine ⟨?_, ?_, Nat.mod_lt _ hm, ?_⟩
  · show (z.emod (2 ^ 31)).toNat < 2 ^ 31
    have h1 : z.emod (2 ^ 31) < 2 ^ 31 := Int.emod_lt_of_pos z (by positivity)
    have h2 : 0 ≤ z.emod (2 ^ 31) := Int.emod_nonneg z (by positivity)
    omega
  · exact Nat.mod_lt _ (by norm_num)
  · show (a * (trajetoria dt decaimento xi_p a c m n).X + c) % m < m
    exact Nat.mod_lt _ hm

/-- Witness for C4 amended at concrete seeds and parameters. -/
theorem C4_amended_witness :
    (0 : ℕ) < 11
    ∧ (seed_to_glc_x0 (Sum.inl 5) < 2 ^ 31
       ∧ seed_to_glc_x0 (Sum.inr 7) < 2 ^ 31 - 1
       ∧ (2 * 1 + 3) % 11 < 11
       ∧ (trajetoria 1 1 0 2 3 11 (0 + 1)).X < 11) :=
  ⟨by decide, C4_amended 5 7 1 2 3 11 (by decide) 1 1 0 0⟩

/-- C5: the impulse function normalizes the PRNG state to `noise = X/m` and
returns `0.05 + noise*5` when `noise > 0.95` and `0.05 + noise` otherwise
(the 0.95 cutoff and the *5 amplification exactly as in the source), and the
impulse is always non-negative. -/
theorem C5_impulse_policy (X m : ℕ) :
    0 ≤ f_ia X m
    ∧ f_ia X m = (if (X : ℚ) / (m : ℚ) > 95 / 100
        then 5 / 100 + ((X : ℚ) / (m : ℚ)) * 5
        else 5 / 100 + (X : ℚ) / (m : ℚ)) := by
  refine ⟨?_, rfl⟩
  have hnn : (0 : ℚ) ≤ (X : ℚ) / (m : ℚ) := by positivity
  show 0 ≤ if (X : ℚ) / (m : ℚ) > 95 / 100
    then 5 / 100 + ((X : ℚ) / (m : ℚ)) * 5
    else 5 / 100 + (X : ℚ) / (m : ℚ)
  split <;> nlinarith

/-- C7: translation reads non-overlapping triplets left-to-right (each step
consumes exactly three leading bases), ignores 1-2 trailing leftover bases
(inputs shorter than a triplet translate to nothing), and terminates at the
first stop codon with the stop codon excluded; in particular
`translate("ATGATGTAA") = "MM"` and `translate("ATGTAATTT") = "M"`. -/
theorem C7_codon_translation :
    (∀ c1 c2 c3 : Char, ∀ rest : List Char,
        traduzir_para_proteina (c1 :: c2 :: c3 :: rest) =
          if (CODON_TABLE.lookup [c1, c2, c3]).getD 'X' = '_' then []
          else (CODON_TABLE.lookup [c1, c2, c3]).getD 'X' :: traduzir_para_proteina rest)
    ∧ (∀ l : List Char, l.length < 3 → traduzir_para_proteina l = [])
    ∧ traduzir_para_proteina ['A', 'T', 'G', 'A', 'T', 'G', 'T', 'A', 'A'] = ['M', 'M']
    ∧ traduzir_para_proteina ['A', 'T', 'G', 'T', 'A', 'A', 'T', 'T', 'T'] = ['M'] := by
  refine ⟨fun c1 c2 c3 rest => rfl, ?_, by decide, by decide⟩
  intro l hl
  match l with
  | [] => rfl
  | [_] => rfl
  | [_, _] => rfl
  | _ :: _ :: _ :: _ => simp at hl; omega

/-- C8 counterexample: on the non-ATCG input "ZZZ" translation does not fail
with an `InvalidSequence` condition — the total function returns the
placeholder amino acid, `traduzir_para_proteina "ZZZ" = "X"`. -/
theorem C8_counterexample :
    traduzir_para_proteina ['Z', 'Z', 'Z'] = ['X'] := by decide

/-- C8 amended: for every triplet absent from the codon table (as any triplet
with a non-ATCG character is), translation does not fail: the triplet is
mapped to the placeholder amino acid 'X' — it is neither rejected nor treated
as a known base/codon. -/
theorem C8_amended (c1 c2 c3 : Char) (rest : List Char)
    (hnone : CODON_TABLE.lookup [c1, c2, c3] = none) :
    traduzir_para_proteina (c1 :: c2 :: c3 :: rest) = 'X' :: traduzir_para_proteina rest := by
  show (if (CODON_TABLE.lookup [c1, c2, c3]).getD 'X' = '_' then []
    else (CODON_TABLE.lookup [c1, c2, c3]).getD 'X' :: traduzir_para_proteina rest)
      = 'X' :: traduzir_para_proteina rest
  rw [hnone]
  simp

/-- Witness for C8 amended at the non-ATCG triplet "ZZT". -/
theorem C8_amended_witness :
    CODON_TABLE.lookup ['Z', 'Z', 'T'] = none
    ∧ traduzir_para_proteina ['Z', 'Z', 'T'] = 'X' :: traduzir_para_proteina [] :=
  ⟨by decide, C8_amended 'Z' 'Z' 'T' [] (by decide)⟩

/-- C1: every sample of a successful run satisfies `x_n = x_0 + m_n` with
`x_0 = psi(seed)` fixed at simulation start, `m_0 = 0`, and the memory
recurrence `m_{n+1} = decay * m_n + f_{n+1} * dt` between consecutive samples;
the decay factor (`exp(-lambda*dt)` in the source, the parameter `decaimento`
here) is computed once and constant across the run. -/
theorem C1_trajectory_invariant (n_dias : ℤ) (dt decaimento : ℚ) (xi_p : ℤ)
    (a c m : ℕ) (samples : List Sample)
    (hs : rodar_simulacao n_dias dt decaimento xi_p a c m = some samples)
    (k : ℕ) (hk : k < samples.length) :
    (samples.getD k default).x = psi xi_p + (samples.getD k default).mem
    ∧ (samples.getD 0 default).mem = 0
    ∧ (k + 1 < samples.length →
        (samples.getD (k + 1) default).mem
          = decaimento * (samples.getD k default).mem
            + (samples.getD (k + 1) default).f * dt) := by
  have hseq := rodar_simulacao_eq_some n_dias dt decaimento xi_p a c m samples hs
  subst hseq
  refine ⟨?_, ?_, ?_⟩
  · rw [getD_map_range _ _ _ hk]
    exact trajetoria_x_eq dt decaimento xi_p a c m k
  · rw [getD_map_range _ _ _ (Nat.lt_of_le_of_lt (Nat.zero_le k) hk)]
    rfl
  · intro hk1
    rw [getD_map_range _ _ _ hk1, getD_map_range _ _ _ hk]
    exact trajetoria_mem_succ dt decaimento xi_p a c m k

/-- Witness for C1 at a 2-step run with concrete parameters. -/
theorem C1_witness :
    rodar_simulacao 2 1 (1 / 2) 7 5 3 11
      = some ((List.range 2).map (trajetoria 1 (1 / 2) 7 5 3 11))
    ∧ (0 : ℕ) < ((List.range 2).map (trajetoria 1 (1 / 2) 7 5 3 11)).length
    ∧ ((((List.range 2).map (trajetoria 1 (1 / 2) 7 5 3 11)).getD 0 default).x
          = psi 7 + (((List.range 2).map (trajetoria 1 (1 / 2) 7 5 3 11)).getD 0 default).mem
        ∧ (((List.range 2).map (trajetoria 1 (1 / 2) 7 5 3 11)).getD 0 default).mem = 0
        ∧ (0 + 1 < ((List.range 2).map (trajetoria 1 (1 / 2) 7 5 3 11)).length →
            (((List.range 2).map (trajetoria 1 (1 / 2) 7 5 3 11)).getD (0 + 1) default).mem
              = 1 / 2 * (((List.range 2).map (trajetoria 1 (1 / 2) 7 5 3 11)).getD 0 default).mem
                + (((List.range 2).map (trajetoria 1 (1 / 2) 7 5 3 11)).getD (0 + 1) default).f * 1)) := by
  have h2 : n_passos 2 1 = 2 := by simpa using n_passos_ofNat 2
  exact ⟨by simp [rodar_simulacao, h2], by simp,
    C1_trajectory_invariant 2 1 (1 / 2) 7 5 3 11 _ (by simp [rodar_simulacao, h2]) 0 (by simp)⟩

/-- Unfolding `mut_states` at index zero. -/
theorem mut_states_zero (s : ℕ) : mut_states s 0 = s := rfl

/-- Unfolding `mut_states` at a successor index. -/
theorem mut_states_succ (s k : ℕ) :
    mut_states s (k + 1) = gerar_numero_aleatorio (mut_states s k) := rfl

/-- Shifting the start state of `mut_states` by one PRNG step. -/
theorem mut_states_shift (s k : ℕ) :
    mut_states s (k + 1) = mut_states (gerar_numero_aleatorio s) k := by
  induction k with
  | zero => rw [mut_states_succ, mut_states_zero, mut_states_zero]
  | succ k ih => rw [mut_states_succ s (k + 1), ih, ← mut_states_succ]

/-- The mutation loop preserves the sequence length. -/
theorem aplicar_mutacoes_go_length (oracle : ℕ → ℕ) (l : List Char) :
    ∀ s i : ℕ, (aplicar_mutacoes_go oracle s i l).length = l.length := by
  induction l with
  | nil => intro s i; rfl
  | cons base rest ih =>
    intro s i
    simp only [aplicar_mutacoes_go, List.length_cons]
    rw [ih]

/-- Unfolding of the mutation loop on a cons cell. -/
theorem aplicar_mutacoes_go_cons (oracle : ℕ → ℕ) (s i : ℕ) (base : Char)
    (rest : List Char) :
    aplicar_mutacoes_go oracle s i (base :: rest)
      = (if ((gerar_numero_aleatorio s : ℕ) : ℚ) / (GLC_M : ℚ) < LIMIAR_MUTACAO
         then escolher_nova_base base (oracle i) else base)
        :: aplicar_mutacoes_go oracle (gerar_numero_aleatorio s) (i + 1) rest := rfl

/-- Per-position characterization of the mutation loop: position `k` is
replaced through `escolher_nova_base` exactly when the freshly advanced PRNG
state passes the threshold check, and is copied unchanged otherwise. -/
theorem aplicar_mutacoes_go_getD (oracle : ℕ → ℕ) (l : List Char) :
    ∀ s i k : ℕ, k < l.length →
      (aplicar_mutacoes_go oracle s i l).getD k 'A' =
        if ((mut_states s (k + 1) : ℕ) : ℚ) / (GLC_M : ℚ) < LIMIAR_MUTACAO
        then escolher_nova_base (l.getD k 'A') (oracle (i + k))
        else l.getD k 'A' := by
  induction l with
  | nil => intro s i k hk; simp at hk
  | cons base rest ih =>
    intro s i k hk
    cases k with
    | zero =>
      rw [aplicar_mutacoes_go_cons, List.getD_cons_zero, List.getD_cons_zero,
        mut_states_succ, mut_states_zero, Nat.add_zero]
    | succ k =>
      have hk' : k < rest.length := by simpa using hk
      rw [aplicar_mutacoes_go_cons, List.getD_cons_succ,
        ih (gerar_numero_aleatorio s) (i + 1) k hk', ← mut_states_shift,
        List.getD_cons_succ, show i + 1 + k = i + (k + 1) from by omega]

/-- `escolher_nova_base` returns one of the three bases other than the
original whenever the original is one of A, T, C, G. -/
theorem escolher_nova_base_mem (original : Char) (pick : ℕ)
    (h : original ∈ ['A', 'T', 'C', 'G']) :
    escolher_nova_base original pick ∈ ['A', 'T', 'C', 'G'].erase original := by
  have h3 : pick % 3 = 0 ∨ pick % 3 = 1 ∨ pick % 3 = 2 := by omega
  have h4 : original = 'A' ∨ original = 'T' ∨ original = 'C' ∨ original = 'G' := by
    simpa using h
  rcases h4 with rfl | rfl | rfl | rfl <;> rcases h3 with hp | hp | hp <;>
    simp +decide [escolher_nova_base, hp]

/-- C9: for every DNA sequence over {A,T,C,G}, every seed and every
replacement oracle, the mutated output has the input's length, every output
base is in {A,T,C,G}, and an output base differs from the input base only at
positions whose per-position check `prob < 0.02` passed (with `prob` the
freshly advanced PRNG state over `m = 2^32`), the replacement there being one
of the three bases other than the original. -/
theorem C9_mutation_sampler (sequencia : List Char) (semente : ℤ) (oracle : ℕ → ℕ)
    (hseq : ∀ b ∈ sequencia, b ∈ ['A', 'T', 'C', 'G'])
    (k : ℕ) (hk : k < sequencia.length) :
    (aplicar_mutacoes sequencia semente oracle).length = sequencia.length
    ∧ (aplicar_mutacoes sequencia semente oracle).getD k 'A' ∈ ['A', 'T', 'C', 'G']
    ∧ ((aplicar_mutacoes sequencia semente oracle).getD k 'A' ≠ sequencia.getD k 'A' →
        ((mut_states ((semente.emod (2 ^ 32)).toNat) (k + 1) : ℕ) : ℚ) / (GLC_M : ℚ)
            < LIMIAR_MUTACAO
        ∧ (aplicar_mutacoes sequencia semente oracle).getD k 'A'
            ∈ ['A', 'T', 'C', 'G'].erase (sequencia.getD k 'A')) := by
  have hchar := aplicar_mutacoes_go_getD oracle sequencia
    ((semente.emod (2 ^ 32)).toNat) 0 k hk
  rw [Nat.zero_add] at hchar
  have hmem : sequencia.getD k 'A' ∈ ['A', 'T', 'C', 'G'] := by
    apply hseq
    rw [List.getD_eq_getElem _ _ hk]
    exact List.getElem_mem hk
  refine ⟨aplicar_mutacoes_go_length oracle sequencia _ 0, ?_, ?_⟩
  · show (aplicar_mutacoes_go oracle ((semente.emod (2 ^ 32)).toNat) 0 sequencia).getD k 'A' ∈ _
    rw [hchar]
    split
    · exact List.erase_subset _ _ (escolher_nova_base_mem _ _ hmem)
    · exact hmem
  · intro hne
    have hcond : ((mut_states ((semente.emod (2 ^ 32)).toNat) (k + 1) : ℕ) : ℚ)
        / (GLC_M : ℚ) < LIMIAR_MUTACAO := by
      by_contra hnot
      apply hne
      show (aplicar_mutacoes_go oracle ((semente.emod (2 ^ 32)).toNat) 0 sequencia).getD k 'A' = _
      rw [hchar, if_neg hnot]
    refine ⟨hcond, ?_⟩
    show (aplicar_mutacoes_go oracle ((semente.emod (2 ^ 32)).toNat) 0 sequencia).getD k 'A' ∈ _
    rw [hchar, if_pos hcond]
    exact escolher_nova_base_mem _ _ hmem

/-- Witness for C9 at the one-base sequence "A" with seed 1972. -/
theorem C9_witness :
    (∀ b ∈ ['A'], b ∈ ['A', 'T', 'C', 'G']) ∧ (0 : ℕ) < (['A'] : List Char).length
    ∧ ((aplicar_mutacoes ['A'] 1972 (fun _ => 0)).length = (['A'] : List Char).length
        ∧ (aplicar_mutacoes ['A'] 1972 (fun _ => 0)).getD 0 'A' ∈ ['A', 'T', 'C', 'G']
        ∧ ((aplicar_mutacoes ['A'] 1972 (fun _ => 0)).getD 0 'A'
              ≠ (['A'] : List Char).getD 0 'A' →
            ((mut_states (((1972 : ℤ).emod (2 ^ 32)).toNat) (0 + 1) : ℕ) : ℚ) / (GLC_M : ℚ)
                < LIMIAR_MUTACAO
            ∧ (aplicar_mutacoes ['A'] 1972 (fun _ => 0)).getD 0 'A'
                ∈ ['A', 'T', 'C', 'G'].erase ((['A'] : List Char).getD 0 'A'))) :=
  ⟨by decide, by decide,
    C9_mutation_sampler ['A'] 1972 (fun _ => 0) (by decide) 0 (by decide)⟩

/-- Unfolding `List.enumFrom` on a cons cell. -/
theorem enumFrom_cons {α : Type*} (n : ℕ) (a : α) (l : List α) :
    List.enumFrom n (a :: l) = (n, a) :: List.enumFrom (n + 1) l := rfl

/-- Every element of `List.enumFrom n l` pairs an index `n + j` with the
`j`-th element of `l`. -/
theorem mem_enumFrom_spec {α : Type*} (d : α) (l : List α) :
    ∀ n, ∀ x ∈ List.enumFrom n l, ∃ j, j < l.length ∧ x.1 = n + j ∧ x.2 = l.getD j d := by
  induction l with
  | nil =>
    intro n x hx
    rw [show List.enumFrom n ([] : List α) = [] from rfl] at hx
    exact absurd hx (List.not_mem_nil x)
  | cons a l ih =>
    intro n x hx
    rw [enumFrom_cons] at hx
    rcases List.mem_cons.mp hx with rfl | hx'
    · exact ⟨0, by simp, by simp, by simp⟩
    · rcases ih (n + 1) x hx' with ⟨j, hj, h1, h2⟩
      refine ⟨j + 1, by simpa using hj, by omega, ?_⟩
      rw [h2, List.getD_cons_succ]

/-- Conversely, every in-range index of `l` appears in `List.enumFrom n l`. -/
theorem enumFrom_mem_of_lt {α : Type*} (d : α) (l : List α) :
    ∀ n j, j < l.length → ((n + j, l.getD j d) : ℕ × α) ∈ List.enumFrom n l := by
  induction l with
  | nil => intro n j hj; simp at hj
  | cons a l ih =>
    intro n j hj
    rw [enumFrom_cons]
    cases j with
    | zero =>
      rw [Nat.add_zero, List.getD_cons_zero]
      exact List.mem_cons_self _ _
    | succ j =>
      have hmem := ih (n + 1) j (by simpa using hj)
      rw [List.getD_cons_succ, show n + (j + 1) = n + 1 + j from by omega]
      exact List.mem_cons_of_mem _ hmem

/-- Indices listed by `List.enumFrom n` are at least `n`. -/
theorem le_fst_of_mem_enumFrom {α : Type*} (l : List α) :
    ∀ n, ∀ x ∈ List.enumFrom n l, n ≤ x.1 := by
  induction l with
  | nil =>
    intro n x hx
    rw [show List.enumFrom n ([] : List α) = [] from rfl] at hx
    exact absurd hx (List.not_mem_nil x)
  | cons a l ih =>
    intro n x hx
    rw [enumFrom_cons] at hx
    rcases List.mem_cons.mp hx with rfl | hx'
    · exact le_refl n
    · exact Nat.le_of_succ_le (ih (n + 1) x hx')

/-- The indices listed by `List.enumFrom` are strictly increasing. -/
theorem pairwise_fst_lt_enumFrom {α : Type*} (l : List α) :
    ∀ n, (List.enumFrom n l).Pairwise (fun p q => p.1 < q.1) := by
  induction l with
  | nil =>
    intro n
    rw [show List.enumFrom n ([] : List α) = [] from rfl]
    exact List.Pairwise.nil
  | cons a l ih =>
    intro n
    rw [enumFrom_cons]
    refine List.Pairwise.cons ?_ (ih (n + 1))
    intro q hq
    exact Nat.lt_of_succ_le (le_fst_of_mem_enumFrom l (n + 1) q hq)

/-- Filtering `List.enumFrom` by a predicate on the element keeps as many
entries as filtering the underlying list. -/
theorem length_filter_enumFrom {α : Type*} (q : α → Bool) (l : List α) :
    ∀ n, ((List.enumFrom n l).filter (fun p => q p.2)).length = (l.filter q).length := by
  induction l with
  | nil => intro n; rfl
  | cons a l ih =>
    intro n
    rw [enumFrom_cons, List.filter_cons, List.filter_cons]
    by_cases hq : q a
    · simp only [hq]
      simp [ih (n + 1)]
    · simp only [hq]
      simp [ih (n + 1)]

/-- C6: for a successful run with detection, a sample index appears among the
events exactly when its impulse strictly exceeds the threshold; the event
count equals the count of qualifying samples; events are in strictly
increasing step (chronological) order with no deduplication; and every event
carries the step, the time, the impulse and the PRNG state of that step. -/
theorem C6_event_detector (n_dias : ℤ) (dt decaimento threshold : ℚ) (xi_p : ℤ)
    (a c m : ℕ) (samples : List Sample) (events : List Event)
    (hs : run_simulation_with_detection n_dias dt decaimento xi_p a c m threshold
        = some (samples, events))
    (k : ℕ) (hk : k < samples.length) :
    ((samples.getD k default).f > threshold ↔ ∃ e ∈ events, e.step = k)
    ∧ events.length = (samples.filter (fun s => decide (s.f > threshold))).length
    ∧ events.Pairwise (fun e1 e2 => e1.step < e2.step)
    ∧ ∀ e ∈ events, e.step < samples.length
        ∧ e.time = (samples.getD e.step default).tempo
        ∧ e.f = (samples.getD e.step default).f
        ∧ e.X = (samples.getD e.step default).X := by
  have hev : events = (samples.enum.filter (fun p => decide (p.2.f > threshold))).map
      (fun p => { step := p.1, time := p.2.tempo, f := p.2.f, X := p.2.X }) := by
    unfold run_simulation_with_detection at hs
    cases hr : rodar_simulacao n_dias dt decaimento xi_p a c m with
    | none => rw [hr] at hs; exact absurd hs (by simp)
    | some l =>
      rw [hr] at hs
      simp only [Option.map_some', Option.some.injEq, Prod.mk.injEq] at hs
      obtain ⟨h1, h2⟩ := hs
      rw [h1] at h2
      exact h2.symm
  subst hev
  refine ⟨⟨?_, ?_⟩, ?_, ?_, ?_⟩
  · intro hf
    have hmem := enumFrom_mem_of_lt default samples 0 k hk
    rw [Nat.zero_add] at hmem
    refine ⟨_, List.mem_map_of_mem _ (List.mem_filter.mpr ⟨hmem, decide_eq_true hf⟩), rfl⟩
  · rintro ⟨e, he, hstep⟩
    rcases List.mem_map.mp he with ⟨x, hxf, rfl⟩
    rcases List.mem_filter.mp hxf with ⟨hxe, hxp⟩
    rcases mem_enumFrom_spec default samples 0 x hxe with ⟨j, hj, hx1, hx2⟩
    rw [Nat.zero_add] at hx1
    have hjk : j = k := by rw [← hx1]; exact hstep
    subst hjk
    rw [← hx2]
    exact of_decide_eq_true hxp
  · rw [List.length_map]
    exact length_filter_enumFrom (fun s => decide (s.f > threshold)) samples 0
  · exact List.pairwise_map.mpr
      ((pairwise_fst_lt_enumFrom samples 0).filter (fun p => decide (p.2.f > threshold)))
  · intro e he
    rcases List.mem_map.mp he with ⟨x, hxf, rfl⟩
    rcases List.mem_filter.mp hxf with ⟨hxe, _⟩
    rcases mem_enumFrom_spec default samples 0 x hxe with ⟨j, hj, hx1, hx2⟩
    rw [Nat.zero_add] at hx1
    refine ⟨?_, ?_, ?_, ?_⟩
    · show x.1 < samples.length
      rw [hx1]; exact hj
    · show x.2.tempo = (samples.getD x.1 default).tempo
      rw [hx1, ← hx2]
    · show x.2.f = (samples.getD x.1 default).f
      rw [hx1, ← hx2]
    · show x.2.X = (samples.getD x.1 default).X
      rw [hx1, ← hx2]

/-- Witness for C6 at a 1-step run with threshold 0, which detects one event. -/
theorem C6_witness :
    run_simulation_with_detection 1 1 1 1 1 0 2 0
      = some ((List.range 1).map (trajetoria 1 1 1 1 0 2),
          ((((List.range 1).map (trajetoria 1 1 1 1 0 2)).enum.filter
              (fun p => decide (p.2.f > 0))).map
            (fun p => { step := p.1, time := p.2.tempo, f := p.2.f, X := p.2.X })))
    ∧ (0 : ℕ) < ((List.range 1).map (trajetoria 1 1 1 1 0 2)).length
    ∧ (((((List.range 1).map (trajetoria 1 1 1 1 0 2)).getD 0 default).f > 0
          ↔ ∃ e ∈ ((((List.range 1).map (trajetoria 1 1 1 1 0 2)).enum.filter
              (fun p => decide (p.2.f > 0))).map
            (fun p => ({ step := p.1, time := p.2.tempo, f := p.2.f, X := p.2.X } : Event))),
            e.step = 0)
        ∧ ((((List.range 1).map (trajetoria 1 1 1 1 0 2)).enum.filter
              (fun p => decide (p.2.f > 0))).map
            (fun p => ({ step := p.1, time := p.2.tempo, f := p.2.f, X := p.2.X } : Event))).length
          = (((List.range 1).map (trajetoria 1 1 1 1 0 2)).filter
              (fun s => decide (s.f > 0))).length
        ∧ ((((List.range 1).map (trajetoria 1 1 1 1 0 2)).enum.filter
              (fun p => decide (p.2.f > 0))).map
            (fun p => ({ step := p.1, time := p.2.tempo, f := p.2.f, X := p.2.X } : Event))).Pairwise
            (fun e1 e2 => e1.step < e2.step)
        ∧ ∀ e ∈ ((((List.range 1).map (trajetoria 1 1 1 1 0 2)).enum.filter
              (fun p => decide (p.2.f > 0))).map
            (fun p => ({ step := p.1, time := p.2.tempo, f := p.2.f, X := p.2.X } : Event))),
            e.step < ((List.range 1).map (trajetoria 1 1 1 1 0 2)).length
            ∧ e.time = (((List.range 1).map (trajetoria 1 1 1 1 0 2)).getD e.step default).tempo
            ∧ e.f = (((List.range 1).map (trajetoria 1 1 1 1 0 2)).getD e.step default).f
            ∧ e.X = (((List.range 1).map (trajetoria 1 1 1 1 0 2)).getD e.step default).X) := by
  have h1 : n_passos 1 1 = 1 := by simpa using n_passos_ofNat 1
  refine ⟨by simp [run_simulation_with_detection, rodar_simulacao, h1], by simp, ?_⟩
  exact C6_event_detector 1 1 1 0 1 1 0 2 _ _
    (by simp [run_simulation_with_detection, rodar_simulacao, h1]) 0 (by simp)

/-- Zeta-expanded form of `search_step`, used to reason by cases on the two
branch conditions of the loop body. -/
theorem search_step_eq (classificar : List Char → ℚ) (sequencia : List Char)
    (semente : ℤ) (oracle : ℕ → ℕ → ℕ) (proteina_original : List Char)
    (st : LoopState) (i : ℕ) :
    search_step classificar sequencia semente oracle proteina_original st i
      = if traduzir_para_proteina (aplicar_mutacoes sequencia (semente + (i : ℤ)) (oracle i)) = []
          ∨ traduzir_para_proteina (aplicar_mutacoes sequencia (semente + (i : ℤ)) (oracle i))
              = proteina_original
        then st
        else if classificar (traduzir_para_proteina
            (aplicar_mutacoes sequencia (semente + (i : ℤ)) (oracle i))) > st.melhor_impacto
        then { melhor_proteina := traduzir_para_proteina
                 (aplicar_mutacoes sequencia (semente + (i : ℤ)) (oracle i))
               melhor_impacto := classificar (traduzir_para_proteina
                 (aplicar_mutacoes sequencia (semente + (i : ℤ)) (oracle i)))
               history := st.history ++
                 [{ i := i
                    dna := aplicar_mutacoes sequencia (semente + (i : ℤ)) (oracle i)
                    prot := traduzir_para_proteina
                      (aplicar_mutacoes sequencia (semente + (i : ℤ)) (oracle i))
                    impacto := classificar (traduzir_para_proteina
                      (aplicar_mutacoes sequencia (semente + (i : ℤ)) (oracle i))) }] }
        else { st with history := st.history ++
                 [{ i := i
                    dna := aplicar_mutacoes sequencia (semente + (i : ℤ)) (oracle i)
                    prot := traduzir_para_proteina
                      (aplicar_mutacoes sequencia (semente + (i : ℤ)) (oracle i))
                    impacto := classificar (traduzir_para_proteina
                      (aplicar_mutacoes sequencia (semente + (i : ℤ)) (oracle i))) }] } := rfl

/-- Invariant of the search loop: the best score dominates the baseline and
every history entry, the best protein is still the baseline one if the best
score never moved, and once the best score strictly exceeds the baseline it
is realized by the first history entry carrying that score. -/
def search_inv (proteina_original : List Char) (impacto_original : ℚ)
    (st : LoopState) : Prop :=
  impacto_original ≤ st.melhor_impacto
  ∧ (∀ r0 ∈ st.history, r0.impacto ≤ st.melhor_impacto)
  ∧ (st.melhor_impacto = impacto_original → st.melhor_proteina = proteina_original)
  ∧ (impacto_original < st.melhor_impacto →
      ∃ r0, st.history.find? (fun r1 => decide (r1.impacto = st.melhor_impacto)) = some r0
        ∧ r0.prot = st.melhor_proteina)

/-- One iteration of the search loop preserves `search_inv`. -/
theorem search_step_preserves_inv (classificar : List Char → ℚ)
    (sequencia : List Char) (semente : ℤ) (oracle : ℕ → ℕ → ℕ)
    (proteina_original : List Char) (impacto_original : ℚ) (st : LoopState) (i : ℕ)
    (hinv : search_inv proteina_original impacto_original st) :
    search_inv proteina_original impacto_original
      (search_step classificar sequencia semente oracle proteina_original st i) := by
  obtain ⟨h1, h2, h3, h4⟩ := hinv
  rw [search_step_eq]
  split_ifs with hskip himp
  · exact ⟨h1, h2, h3, h4⟩
  · refine ⟨le_of_lt (lt_of_le_of_lt h1 himp), ?_, ?_, ?_⟩
    · intro r0 hr0
      rcases List.mem_append.mp hr0 with hold | hnew
      · exact le_of_lt (lt_of_le_of_lt (h2 r0 hold) himp)
      · rcases List.mem_singleton.mp hnew with rfl
        exact le_refl _
    · intro heq
      exact absurd heq.symm (ne_of_lt (lt_of_le_of_lt h1 himp))
    · intro _
      refine ⟨{ i := i
                dna := aplicar_mutacoes sequencia (semente + (i : ℤ)) (oracle i)
                prot := traduzir_para_proteina
                  (aplicar_mutacoes sequencia (semente + (i : ℤ)) (oracle i))
                impacto := classificar (traduzir_para_proteina
                  (aplicar_mutacoes sequencia (semente + (i : ℤ)) (oracle i))) }, ?_, rfl⟩
      have hnone : st.history.find? (fun r1 => decide (r1.impacto
          = classificar (traduzir_para_proteina
            (aplicar_mutacoes sequencia (semente + (i : ℤ)) (oracle i))))) = none := by
        rw [List.find?_eq_none]
        intro x hx
        simp only [decide_eq_true_eq]
        exact ne_of_lt (lt_of_le_of_lt (h2 x hx) himp)
      show (st.history ++ _).find? _ = some _
      rw [List.find?_append, hnone, Option.none_or]
      exact List.find?_cons_of_pos _ (decide_eq_true rfl)
  · have hle : classificar (traduzir_para_proteina
        (aplicar_mutacoes sequencia (semente + (i : ℤ)) (oracle i))) ≤ st.melhor_impacto :=
      not_lt.mp himp
    refine ⟨h1, ?_, h3, ?_⟩
    · intro r0 hr0
      rcases List.mem_append.mp hr0 with hold | hnew
      · exact h2 r0 hold
      · rcases List.mem_singleton.mp hnew with rfl
        exact hle
    · intro hlt
      rcases h4 hlt with ⟨r0, hfind, hprot⟩
      refine ⟨r0, ?_, hprot⟩
      show (st.history ++ _).find? _ = some r0
      rw [List.find?_append, hfind]
      rfl

/-- The best score never decreases across one iteration of the search loop. -/
theorem search_step_mono (classificar : List Char → ℚ) (sequencia : List Char)
    (semente : ℤ) (oracle : ℕ → ℕ → ℕ) (proteina_original : List Char)
    (st : LoopState) (i : ℕ) :
    st.melhor_impacto
      ≤ (search_step classificar sequencia semente oracle proteina_original st i).melhor_impacto := by
  rw [search_step_eq]
  split_ifs with hskip himp
  · exact le_refl _
  · exact le_of_lt himp
  · exact le_refl _

/-- A skipped iteration (empty protein, or protein equal to the baseline)
leaves the loop state untouched — in particular it appends no history entry. -/
theorem search_step_skip (classificar : List Char → ℚ) (sequencia : List Char)
    (semente : ℤ) (oracle : ℕ → ℕ → ℕ) (proteina_original : List Char)
    (st : LoopState) (i : ℕ)
    (h : traduzir_para_proteina (aplicar_mutacoes sequencia (semente + (i : ℤ)) (oracle i)) = []
        ∨ traduzir_para_proteina (aplicar_mutacoes sequencia (semente + (i : ℤ)) (oracle i))
            = proteina_original) :
    search_step classificar sequencia semente oracle proteina_original st i = st := by
  rw [search_step_eq, if_pos h]

/-- Unfolding of the loop state by one iteration. -/
theorem loop_state_succ (classificar : List Char → ℚ) (sequencia : List Char)
    (semente : ℤ) (oracle : ℕ → ℕ → ℕ) (n : ℕ) :
    loop_state classificar sequencia semente oracle (n + 1)
      = search_step classificar sequencia semente oracle (traduzir_para_proteina sequencia)
          (loop_state classificar sequencia semente oracle n) n := by
  unfold loop_state
  rw [List.range_succ, List.foldl_append]
  rfl

/-- The loop state satisfies `search_inv` after any number of iterations. -/
theorem loop_state_inv (classificar : List Char → ℚ) (sequencia : List Char)
    (semente : ℤ) (oracle : ℕ → ℕ → ℕ) (n : ℕ) :
    search_inv (traduzir_para_proteina sequencia)
      (classificar (traduzir_para_proteina sequencia))
      (loop_state classificar sequencia semente oracle n) := by
  induction n with
  | zero =>
    refine ⟨le_refl _, ?_, fun _ => rfl, ?_⟩
    · intro r0 hr0
      exact absurd hr0 (List.not_mem_nil r0)
    · intro hlt
      exact absurd hlt (lt_irrefl _)
  | succ n ih =>
    rw [loop_state_succ]
    exact search_step_preserves_inv classificar sequencia semente oracle
      (traduzir_para_proteina sequencia) (classificar (traduzir_para_proteina sequencia))
      (loop_state classificar sequencia semente oracle n) n ih

/-- C10 amended: the best score starts at the baseline score and is
non-decreasing over iterations (it is updated only on strictly greater
scores); iterations whose mutated protein is empty or identical to the
baseline protein produce no history entry; if the final best score equals the
baseline score the best protein is the baseline protein; and whenever the
final best score strictly exceeds the baseline score, the best protein is the
protein of the first history entry whose score equals the final best score.
(The unconditional tie-break clause of the original claim fails when a
history entry merely ties the baseline score — see the counterexample.) -/
theorem C10_amended (classificar : List Char → ℚ) (sequencia : List Char)
    (semente : ℤ) (oracle : ℕ → ℕ → ℕ) (n : ℕ) :
    (run_simulation classificar sequencia semente oracle n).original_impact
        ≤ (run_simulation classificar sequencia semente oracle n).best_impact
    ∧ (run_simulation classificar sequencia semente oracle n).best_impact
        ≤ (run_simulation classificar sequencia semente oracle (n + 1)).best_impact
    ∧ (traduzir_para_proteina (aplicar_mutacoes sequencia (semente + (n : ℤ)) (oracle n)) = []
        ∨ traduzir_para_proteina (aplicar_mutacoes sequencia (semente + (n : ℤ)) (oracle n))
            = (run_simulation classificar sequencia semente oracle n).original_protein →
        (run_simulation classificar sequencia semente oracle (n + 1)).history
          = (run_simulation classificar sequencia semente oracle n).history)
    ∧ ((run_simulation classificar sequencia semente oracle n).best_impact
          = (run_simulation classificar sequencia semente oracle n).original_impact →
        (run_simulation classificar sequencia semente oracle n).best_protein
          = (run_simulation classificar sequencia semente oracle n).original_protein)
    ∧ ((run_simulation classificar sequencia semente oracle n).original_impact
          < (run_simulation classificar sequencia semente oracle n).best_impact →
        ∃ r0, (run_simulation classificar sequencia semente oracle n).history.find?
            (fun r1 => decide (r1.impacto
              = (run_simulation classificar sequencia semente oracle n).best_impact)) = some r0
          ∧ r0.prot = (run_simulation classificar sequencia semente oracle n).best_protein) := by
  obtain ⟨h1, h2, h3, h4⟩ := loop_state_inv classificar sequencia semente oracle n
  refine ⟨h1, ?_, ?_, h3, h4⟩
  · show (loop_state classificar sequencia semente oracle n).melhor_impacto
      ≤ (loop_state classificar sequencia semente oracle (n + 1)).melhor_impacto
    rw [loop_state_succ]
    exact search_step_mono classificar sequencia semente oracle
      (traduzir_para_proteina sequencia) (loop_state classificar sequencia semente oracle n) n
  · intro hskip
    show (loop_state classificar sequencia semente oracle (n + 1)).history
      = (loop_state classificar sequencia semente oracle n).history
    rw [loop_state_succ, search_step_skip classificar sequencia semente oracle
      (traduzir_para_proteina sequencia) (loop_state classificar sequencia semente oracle n)
      n hskip]

/-- Concrete scoring capability for the counterexample: the constant score
1/2 (a legal scorer, always in [0,1]). -/
def const_half : List Char → ℚ := fun _ => 1 / 2

/-- Concrete replacement oracle for the counterexample: `random.choice`
always picking the first remaining base. -/
def oracle0 : ℕ → ℕ → ℕ := fun _ _ => 0

/-- C10 counterexample: with the constant scorer 1/2, baseline DNA "ATG"
(protein "M"), seed 1972 and one iteration, the only mutation flips position 0
to give "TTG" (protein "L", scored 1/2).  The final best score is 1/2 and the
first (and only) history entry carries exactly that score, yet its protein "L"
differs from the final best protein "M" — refuting the claim that the best
protein always equals the protein of the first history entry whose score
equals the final best score. -/
theorem C10_counterexample :
    (run_simulation const_half ['A', 'T', 'G'] 1972 oracle0 1).best_impact = 1 / 2
    ∧ (run_simulation const_half ['A', 'T', 'G'] 1972 oracle0 1).history
        = [{ i := 0, dna := ['T', 'T', 'G'], prot := ['L'], impacto := 1 / 2 }]
    ∧ (run_simulation const_half ['A', 'T', 'G'] 1972 oracle0 1).history.find?
        (fun r1 => decide (r1.impacto
          = (run_simulation const_half ['A', 'T', 'G'] 1972 oracle0 1).best_impact))
        = some { i := 0, dna := ['T', 'T', 'G'], prot := ['L'], impacto := 1 / 2 }
    ∧ (run_simulation const_half ['A', 'T', 'G'] 1972 oracle0 1).best_protein = ['M']
    ∧ (['L'] : List Char) ≠ ['M'] := by
  have hs0 : ((1972 + ((0 : ℕ) : ℤ)).emod (2 ^ 32)).toNat = 1972 := by decide
  have hmut : aplicar_mutacoes ['A', 'T', 'G'] (1972 + ((0 : ℕ) : ℤ)) (oracle0 0)
      = ['T', 'T', 'G'] := by
    show aplicar_mutacoes_go (oracle0 0) (((1972 + ((0 : ℕ) : ℤ)).emod (2 ^ 32)).toNat) 0
      ['A', 'T', 'G'] = ['T', 'T', 'G']
    rw [hs0, aplicar_mutacoes_go_cons, aplicar_mutacoes_go_cons, aplicar_mutacoes_go_cons,
      show gerar_numero_aleatorio 1972 = 1380227 from by decide]
    rw [show gerar_numero_aleatorio 1380227 = 628748038 from by decide]
    rw [show gerar_numero_aleatorio 628748038 = 275937965 from by decide]
    rw [if_pos (show ((1380227 : ℕ) : ℚ) / (GLC_M : ℚ) < LIMIAR_MUTACAO from by
      norm_num [GLC_M, LIMIAR_MUTACAO])]
    rw [if_neg (show ¬ ((628748038 : ℕ) : ℚ) / (GLC_M : ℚ) < LIMIAR_MUTACAO from by
      norm_num [GLC_M, LIMIAR_MUTACAO])]
    rw [if_neg (show ¬ ((275937965 : ℕ) : ℚ) / (GLC_M : ℚ) < LIMIAR_MUTACAO from by
      norm_num [GLC_M, LIMIAR_MUTACAO])]
    rw [show escolher_nova_base 'A' (oracle0 0 0) = 'T' from by decide]
    rfl
  have h0 : loop_state const_half ['A', 'T', 'G'] 1972 oracle0 0
      = { melhor_proteina := ['M'], melhor_impacto := 1 / 2, history := [] } := by
    unfold loop_state
    rw [List.range_zero, List.foldl_nil,
      show traduzir_para_proteina ['A', 'T', 'G'] = ['M'] from by decide]
    rfl
  have hst1 : loop_state const_half ['A', 'T', 'G'] 1972 oracle0 1
      = { melhor_proteina := ['M'], melhor_impacto := 1 / 2,
          history := [{ i := 0, dna := ['T', 'T', 'G'], prot := ['L'], impacto := 1 / 2 }] } := by
    rw [loop_state_succ, h0, search_step_eq, hmut,
      show traduzir_para_proteina ['T', 'T', 'G'] = ['L'] from by decide,
      show traduzir_para_proteina ['A', 'T', 'G'] = ['M'] from by decide]
    rw [if_neg (show ¬ ((['L'] : List Char) = [] ∨ (['L'] : List Char) = ['M']) from by decide)]
    rw [if_neg (show ¬ const_half ['L']
        > ({ melhor_proteina := ['M'], melhor_impacto := 1 / 2,
             history := [] } : LoopState).melhor_impacto from by norm_num [const_half])]
    rfl
  refine ⟨?_, ?_, ?_, ?_, by decide⟩
  · show (loop_state const_half ['A', 'T', 'G'] 1972 oracle0 1).melhor_impacto = 1 / 2
    rw [hst1]
  · show (loop_state const_half ['A', 'T', 'G'] 1972 oracle0 1).history = _
    rw [hst1]
  · show (loop_state const_half ['A', 'T', 'G'] 1972 oracle0 1).history.find?
        (fun r1 => decide (r1.impacto
          = (loop_state const_half ['A', 'T', 'G'] 1972 oracle0 1).melhor_impacto)) = _
    rw [hst1]
    exact List.find?_cons_of_pos _ (decide_eq_true rfl)
  · show (loop_state const_half ['A', 'T', 'G'] 1972 oracle0 1).melhor_proteina = ['M']
    rw [hst1]

end IAprediction
